import Mathlib

/-!
A shallow embedding of `bot.py` (MTCacg): the fetch → deduplicate → deliver →
persist pipeline, its remote-backed dedup cache, the startup configuration
check, and caption/tag rendering.  Python strings are modelled as Lean
`String`s (lists of characters); the Python string primitives used by the
source (`strip`, `replace`, `split`, `join`) are modelled explicitly below.
External effects (HTTP responses, the Telegram send) are passed in as data,
and each function returns the state transition and the sink events it emits.
-/

/-- Characters treated as whitespace by Python's `str.strip()` (ASCII range). -/
def isPySpace (c : Char) : Bool :=
  c == ' ' || c == '\t' || c == '\n' || c == '\r' || c == '\x0b' || c == '\x0c'

/-- Model of Python `str.strip()` on the underlying character list:
drop whitespace from the left, then from the right. -/
def pyStripChars (l : List Char) : List Char :=
  (((l.dropWhile isPySpace).reverse).dropWhile isPySpace).reverse

/-- Model of Python `str.strip()`. -/
def pyStrip (s : String) : String :=
  String.mk (pyStripChars s.data)

/-- Replace every occurrence of the character `old` by the string `new`
(model of Python `str.replace(old, new)` for a one-character pattern). -/
def replaceCharWith (old : Char) (new : List Char) : List Char → List Char
  | [] => []
  | c :: cs =>
    if c = old then new ++ replaceCharWith old new cs
    else c :: replaceCharWith old new cs

/-- Model of Python `text.split(sep)` for a one-character separator, on
character lists.  `split` of the empty string yields `[[]]`, as in Python. -/
def splitChars (sep : Char) : List Char → List (List Char)
  | [] => [[]]
  | c :: cs =>
    if c = sep then [] :: splitChars sep cs
    else (c :: (splitChars sep cs).headD []) :: (splitChars sep cs).tail

/-- Model of Python `sep.join(parts)` for a one-character separator, on
character lists. -/
def joinChars (sep : Char) : List (List Char) → List Char
  | [] => []
  | [x] => x
  | x :: y :: rest => x ++ sep :: joinChars sep (y :: rest)

/-- Model of Python `text.split(sep)` on `String`. -/
def pySplit (text : String) (sep : Char) : List String :=
  (splitChars sep text.data).map String.mk

/-- Model of Python `sep.join(parts)` on `String`. -/
def pyJoin (sep : Char) (parts : List String) : String :=
  String.mk (joinChars sep (parts.map String.data))

/-- Python truthiness of an optional string (`None` and `""` are falsy),
as used by `get_env`, `if not WORKER_URL`, and `all([...])` in `bot.py`. -/
def truthy : Option String → Bool
  | none => false
  | some s => !(s == "")

/-- The environment-derived configuration constants read at the top of
`bot.py` (each field is the value after `get_env` resolution; `none` for an
unset variable).  The field `object_store_bucket` is modelled from the spec:
the spec's list of mandatory startup configuration (§6) names an object-store
bucket, but `bot.py` reads no object-store bucket variable, so no code below
ever consults this field. -/
structure Config where
  bot_token : Option String
  channel_id : Option String
  worker_url : Option String
  cf_account_id : Option String
  cf_api_token : Option String
  d1_db_id : Option String
  object_store_bucket : Option String
deriving DecidableEq

/-- The startup check at `bot.py:59`:
`if not all([BOT_TOKEN, CHANNEL_ID, CF_ACCOUNT_ID, CF_API_TOKEN, D1_DB_ID]): exit(1)`.
Returns `true` exactly when the process halts before the scheduler loop. -/
def startupHalts (c : Config) : Bool :=
  !(truthy c.bot_token && truthy c.channel_id && truthy c.cf_account_id &&
    truthy c.cf_api_token && truthy c.d1_db_id)

/-- Modelled from the spec: the spec's mandatory-configuration list (§6)
comprises the bot credential, the channel identifier, the object-store
account/keys/bucket and the metadata-index account/token/database identifier.
This predicate is `true` when that list has an absent member; it exists only
to compare the spec's halting condition with `startupHalts`. -/
def spec_mandatory_missing (c : Config) : Bool :=
  !(truthy c.bot_token && truthy c.channel_id && truthy c.cf_account_id &&
    truthy c.cf_api_token && truthy c.object_store_bucket && truthy c.d1_db_id)

/-- Outcome of one HTTP round trip to the remote dedup store (the Worker):
either an exception (network/parse failure) or a response with a status code
and a body. -/
inductive FetchResult
  | failure
  | response (status : Nat) (body : String)
deriving DecidableEq

/-- `sync_history_from_cloud` (`bot.py:71-86`): given the configured worker
URL, the result of `GET {WORKER_URL}/api/get_history`, and the current
in-process set, return the new value of `sent_illust_ids`.  The set is
replaced by `set(text.split(','))` only on a 200 response with a non-empty
body; every other path leaves it untouched. -/
def sync_history_from_cloud (worker_url : Option String) (res : FetchResult)
    (sent_illust_ids : List String) : List String :=
  if !(truthy worker_url) then sent_illust_ids
  else
    match res with
    | .failure => sent_illust_ids
    | .response status body =>
      if status = 200 then
        if body ≠ "" then pySplit body ',' else sent_illust_ids
      else sent_illust_ids

/-- The body `push_history_to_cloud` (`bot.py:88-98`) POSTs to
`{WORKER_URL}/api/update_history`: `",".join(sent_illust_ids)`. -/
def push_history_payload (sent_illust_ids : List String) : String :=
  pyJoin ',' sent_illust_ids

/-- One row of the D1 `images` table, as built by `save_to_d1`
(`bot.py:104-118`): `INSERT OR IGNORE INTO images
(id, file_name, caption, tags, created_at) VALUES (?,?,?,?,?)`. -/
structure D1Row where
  id : String
  file_name : String
  caption : String
  tags : String
  created_at : Nat
deriving DecidableEq

/-- `final_tags = f"{tags} {source}".strip()` (`bot.py:110`). -/
def final_tags (tags source : String) : String :=
  pyStrip (tags ++ " " ++ source)

/-- The parameter row `save_to_d1` sends to the D1 query endpoint
(`bot.py:109-111`). -/
def save_to_d1_row (post_id file_id caption tags source : String)
    (now : Nat) : D1Row :=
  { id := post_id, file_name := file_id, caption := caption,
    tags := final_tags tags source, created_at := now }

/-- Outcome of `bot.send_photo`: either an exception, or a message whose
`photo` field lists the file_ids of the available representations
(smallest to largest, as Telegram returns them). -/
inductive TgSend
  | fail
  | ok (photoFileIds : List String)
deriving DecidableEq

/-- An observable write to one of the external sinks. -/
inductive SinkEvent
  | messaging (filename : String) (caption : String)
  | objectStore (key : String)
  | metadata (row : D1Row)
deriving DecidableEq

/-- Whether a sink event is a metadata-index write. -/
def isMetadataEvent : SinkEvent → Bool
  | .metadata _ => true
  | _ => false

/-- Whether a sink event is an object-store write. -/
def isObjectStoreEvent : SinkEvent → Bool
  | .objectStore _ => true
  | _ => false

/-- `process_image` (`bot.py:120-137`): send the photo to the channel with a
synthesized filename `source + ".jpg"`, take `msg.photo[-1].file_id`, then
write the D1 row.  The whole body is wrapped in `try/except Exception`, so a
failed send (or an empty `msg.photo`, where `[-1]` raises) is swallowed: the
function returns normally with no metadata write, and the caller cannot
observe the failure. -/
def process_image (sendRes : TgSend) (post_id tags caption source : String)
    (now : Nat) : List SinkEvent :=
  let attempt := SinkEvent.messaging (source ++ ".jpg") caption
  match sendRes with
  | .fail => [attempt]
  | .ok photos =>
    match photos.getLast? with
    | none => [attempt]
    | some file_id =>
      [attempt, .metadata (save_to_d1_row post_id file_id caption tags source now)]

/-- Turn a space-separated tag string into hashtags:
`"#" + tags.replace(' ', ' #')` (used in both captions,
`bot.py:181` and `bot.py:236`). -/
def hashTags (tags : String) : String :=
  "#" ++ String.mk (replaceCharWith ' ' [' ', '#'] tags.data)

/-- The yande caption f-string (`bot.py:180-181`). -/
def renderYandeCaption (postId : Nat) (tags : String) : String :=
  "Yande: " ++ toString postId ++ "\nTags: " ++ hashTags tags

/-- The pixiv caption f-string (`bot.py:234-236`). -/
def renderPixivCaption (title user tags : String) : String :=
  "Pixiv: " ++ title ++ "\nArtist: " ++ user ++ "\nTags: " ++ hashTags tags

/-- One pixiv illust as it flows through the inner loop of
`fetch_pixiv_by_cookie` (`bot.py:220-248`): its id (a decimal string key of
`body.illusts`), the detail fields, whether the original-image download
returned status 200, and the outcome of the Telegram send for it. -/
structure PixivItem where
  pid : String
  title : String
  user : String
  tagNames : List String
  imgOk : Bool
  sendRes : TgSend
deriving DecidableEq

/-- The mutable state threaded through one fetch cycle: the global
`sent_illust_ids` set (modelled as a list with set membership), the
cycle-local `has_new_images` flag, and the sink events emitted so far. -/
structure BotState where
  sent_illust_ids : List String
  has_new_images : Bool
  events : List SinkEvent
deriving DecidableEq

/-- The `" ".join(...)` of an illust's tag names (`bot.py:231`). -/
def pixivTagsString (it : PixivItem) : String :=
  pyJoin ' ' it.tagNames

/-- The body of the `for pid in ids` loop of `fetch_pixiv_by_cookie`
(`bot.py:220-248`): skip if `str(pid) in sent_illust_ids`; otherwise build
the caption and `post_id = f"pixiv_{pid}"`, and if the image download
returned 200, run `process_image`, then `sent_illust_ids.add(str(pid))` and
`has_new_images = True` — unconditionally, because `process_image` swallows
its own failures. -/
def process_pixiv_item (now : Nat) (st : BotState) (it : PixivItem) : BotState :=
  if it.pid ∈ st.sent_illust_ids then st
  else if it.imgOk then
    { sent_illust_ids := it.pid :: st.sent_illust_ids
      has_new_images := true
      events := st.events ++
        process_image it.sendRes ("pixiv_" ++ it.pid) (pixivTagsString it)
          (renderPixivCaption it.title it.user (pixivTagsString it)) "pixiv" now }
  else st

/-- `fetch_pixiv_by_cookie` (`bot.py:194-254`): `has_new_images` starts
`False`; the items of all artists are processed in order; the function's
final state decides the flush. -/
def fetch_pixiv_by_cookie (now : Nat) (items : List PixivItem)
    (seen : List String) : BotState :=
  List.foldl (process_pixiv_item now)
    { sent_illust_ids := seen, has_new_images := false, events := [] } items

/-- The flush gate at `bot.py:253`: `if has_new_images: await
push_history_to_cloud()`.  `true` exactly when the cycle invokes the remote
history write. -/
def flush_invoked (now : Nat) (items : List PixivItem)
    (seen : List String) : Bool :=
  (fetch_pixiv_by_cookie now items seen).has_new_images

/-- One yande post as it flows through `fetch_yande` (`bot.py:163-189`):
the JSON fields used, whether the image download returned 200, and the
outcome of the Telegram send. -/
structure YandePost where
  id : Nat
  sample_url : Option String
  file_url : Option String
  tags : String
  imgOk : Bool
  sendRes : TgSend
deriving DecidableEq

/-- `post.get('sample_url') or post.get('file_url')` (`bot.py:173`). -/
def yandeImgUrl (p : YandePost) : Option String :=
  if truthy p.sample_url then p.sample_url else p.file_url

/-- The body of the `for post in posts` loop of `fetch_yande`
(`bot.py:172-187`): skip when no usable image URL; otherwise build
`pid = f"yande_{post['id']}"` and the caption, and if the image download
returned 200, run `process_image`.  The yande path never reads or writes
`sent_illust_ids` (the source comments this out as unnecessary for random
queries) and never touches `has_new_images`. -/
def process_yande_post (now : Nat) (st : BotState) (p : YandePost) : BotState :=
  if !(truthy (yandeImgUrl p)) then st
  else if p.imgOk then
    let evs := process_image p.sendRes ("yande_" ++ toString p.id) p.tags
      (renderYandeCaption p.id p.tags) "yande" now
    { st with events := st.events ++ evs }
  else st

/-- `fetch_yande` (`bot.py:163-189`). -/
def fetch_yande (now : Nat) (posts : List YandePost) (st : BotState) : BotState :=
  posts.foldl (process_yande_post now) st

/-- The evolution of `sent_illust_ids` across successive scheduler rounds
(`bot.py:274-282`): after the one-shot startup sync, each round runs
`fetch_yande` (which leaves the set unchanged) and `fetch_pixiv_by_cookie`. -/
def scheduler_seen (now : Nat) (cycles : List (List PixivItem))
    (seen : List String) : List String :=
  cycles.foldl (fun s items => (fetch_pixiv_by_cookie now items s).sent_illust_ids) seen

/-- A pixiv item whose Telegram send fails (used to exercise the step-1
failure path). -/
def failSendItem : PixivItem :=
  { pid := "7", title := "t", user := "u", tagNames := ["x"],
    imgOk := true, sendRes := TgSend.fail }

/-- A pixiv item whose delivery fully succeeds. -/
def okSendItem : PixivItem :=
  { pid := "123", title := "t", user := "u", tagNames := ["x"],
    imgOk := true, sendRes := TgSend.ok ["f1", "f2"] }

/-- The spec's end-to-end scenario candidate: yande post 42 with tags
`"cat cute"`, delivered successfully with channel reference `"AgAC"`. -/
def yandePost42 : YandePost :=
  { id := 42, sample_url := some "http://x/42.jpg", file_url := none,
    tags := "cat cute", imgOk := true, sendRes := TgSend.ok ["AgAC"] }

/-- A configuration with all five code-checked values present, no worker URL
and no object-store bucket. -/
def configNoBucket : Config :=
  { bot_token := some "t", channel_id := some "c", worker_url := none,
    cf_account_id := some "a", cf_api_token := some "k",
    d1_db_id := some "d", object_store_bucket := none }

/-! ### Generic lemmas about the modelled Python string primitives -/

theorem splitChars_ne_nil (sep : Char) (l : List Char) : splitChars sep l ≠ [] := by
  cases l with
  | nil => simp [splitChars]
  | cons c cs =>
    by_cases h : c = sep <;> simp [splitChars, h]

theorem splitChars_no_sep (sep : Char) (l : List Char) (h : sep ∉ l) :
    splitChars sep l = [l] := by
  induction l with
  | nil => rfl
  | cons c cs ih =>
    simp only [List.mem_cons, not_or] at h
    have hc : ¬ (c = sep) := fun e => h.1 e.symm
    simp [splitChars, hc, ih h.2]

theorem splitChars_append_sep (sep : Char) (l rest : List Char) (h : sep ∉ l) :
    splitChars sep (l ++ sep :: rest) = l :: splitChars sep rest := by
  induction l with
  | nil => simp [splitChars]
  | cons c cs ih =>
    simp only [List.mem_cons, not_or] at h
    have hc : ¬ (c = sep) := fun e => h.1 e.symm
    simp [splitChars, hc, ih h.2]

theorem splitChars_joinChars (sep : Char) (ids : List (List Char))
    (hne : ids ≠ []) (h : ∀ l ∈ ids, sep ∉ l) :
    splitChars sep (joinChars sep ids) = ids := by
  induction ids with
  | nil => exact absurd rfl hne
  | cons x xs ih =>
    cases xs with
    | nil => exact splitChars_no_sep sep x (h x (List.mem_cons_self x []))
    | cons y rest =>
      have hx : sep ∉ x := h x (List.mem_cons_self ..)
      have hrest : ∀ l ∈ y :: rest, sep ∉ l := fun l hl => h l (List.mem_cons_of_mem _ hl)
      calc splitChars sep (joinChars sep (x :: y :: rest))
          = splitChars sep (x ++ sep :: joinChars sep (y :: rest)) := rfl
        _ = x :: splitChars sep (joinChars sep (y :: rest)) :=
            splitChars_append_sep sep x _ hx
        _ = x :: (y :: rest) := by rw [ih (by simp) hrest]

theorem joinChars_ne_nil (sep : Char) (ids : List (List Char)) (x : List Char)
    (hx : x ∈ ids) (hxne : x ≠ []) : joinChars sep ids ≠ [] := by
  cases ids with
  | nil => simp at hx
  | cons a as =>
    cases as with
    | nil =>
      have : x = a := by simpa using hx
      simpa [joinChars, this.symm] using hxne
    | cons b bs => simp [joinChars]

theorem pySplit_pyJoin (parts : List String) (hne : parts ≠ [])
    (h : ∀ p ∈ parts, ',' ∉ p.data) : pySplit (pyJoin ',' parts) ',' = parts := by
  unfold pySplit pyJoin
  rw [show (String.mk (joinChars ',' (parts.map String.data))).data
        = joinChars ',' (parts.map String.data) from rfl]
  rw [splitChars_joinChars ',' (parts.map String.data)
        (by simpa using hne)
        (by intro l hl
            obtain ⟨p, hp, rfl⟩ := List.mem_map.mp hl
            exact h p hp)]
  rw [List.map_map]
  exact List.map_id parts

theorem pyJoin_ne_empty (parts : List String) (x : String)
    (hx : x ∈ parts) (hxne : x ≠ "") : pyJoin ',' parts ≠ "" := by
  intro hcon
  have hdata : joinChars ',' (parts.map String.data) = [] := congrArg String.data hcon
  have hxd : x.data ≠ [] := by
    intro hd
    apply hxne
    cases x with
    | mk d =>
      simp only [] at hd
      subst hd
      rfl
  exact joinChars_ne_nil ',' _ x.data (List.mem_map_of_mem _ hx) hxd hdata

theorem dropWhile_eq_cons_head_false {α : Type} {p : α → Bool} :
    ∀ {l : List α} {c : α} {cs : List α}, l.dropWhile p = c :: cs → p c = false := by
  intro l
  induction l with
  | nil => intro c cs h; simp [List.dropWhile] at h
  | cons a as ih =>
    intro c cs h
    by_cases hp : p a
    · rw [List.dropWhile_cons_of_pos hp] at h; exact ih h
    · rw [List.dropWhile_cons_of_neg hp] at h
      cases h
      simpa using hp

theorem dropWhile_append_eq {α : Type} (p : α → Bool) (t s : List α)
    (hs : s.dropWhile p = s) : (t ++ s).dropWhile p = t.dropWhile p ++ s := by
  induction t with
  | nil => simpa using hs
  | cons a t' ih =>
    by_cases hp : p a
    · rw [List.cons_append, List.dropWhile_cons_of_pos hp,
          List.dropWhile_cons_of_pos hp, ih]
    · rw [List.cons_append, List.dropWhile_cons_of_neg hp,
          List.dropWhile_cons_of_neg hp, List.cons_append]

theorem pyStripChars_append (t s : List Char) (hs : s ≠ [])
    (hns : ∀ c ∈ s, isPySpace c = false) :
    pyStripChars (t ++ s) = t.dropWhile isPySpace ++ s := by
  have hsdrop : s.dropWhile isPySpace = s := by
    cases s with
    | nil => rfl
    | cons c cs =>
      exact List.dropWhile_cons_of_neg (by simp [hns c (List.mem_cons_self ..)])
  unfold pyStripChars
  rw [dropWhile_append_eq isPySpace t s hsdrop]
  rw [List.reverse_append]
  have hrev : (s.reverse ++ (t.dropWhile isPySpace).reverse).dropWhile isPySpace
      = s.reverse ++ (t.dropWhile isPySpace).reverse := by
    cases hsr : s.reverse with
    | nil => exact absurd (by simpa using hsr) hs
    | cons c cs =>
      have hc : c ∈ s := by
        have : c ∈ s.reverse := by rw [hsr]; exact List.mem_cons_self ..
        simpa using this
      rw [List.cons_append]
      exact List.dropWhile_cons_of_neg (by simp [hns c hc])
  rw [hrev, List.reverse_append, List.reverse_reverse, List.reverse_reverse]

/-! ### Lemmas about the pixiv pipeline state transition -/

theorem mem_seen_process_pixiv_item {x : String} (now : Nat) (st : BotState)
    (it : PixivItem) (h : x ∈ st.sent_illust_ids) :
    x ∈ (process_pixiv_item now st it).sent_illust_ids := by
  unfold process_pixiv_item
  split_ifs <;> simp [h]

theorem mem_seen_fold {x : String} (now : Nat) :
    ∀ (items : List PixivItem) (st : BotState), x ∈ st.sent_illust_ids →
      x ∈ (List.foldl (process_pixiv_item now) st items).sent_illust_ids := by
  intro items
  induction items with
  | nil => intro st h; exact h
  | cons it rest ih =>
    intro st h
    exact ih _ (mem_seen_process_pixiv_item now st it h)

theorem hasNew_mono_item (now : Nat) (st : BotState) (it : PixivItem)
    (h : st.has_new_images = true) :
    (process_pixiv_item now st it).has_new_images = true := by
  unfold process_pixiv_item
  split_ifs <;> simp [h]

theorem hasNew_mono_fold (now : Nat) :
    ∀ (items : List PixivItem) (st : BotState), st.has_new_images = true →
      (List.foldl (process_pixiv_item now) st items).has_new_images = true := by
  intro items
  induction items with
  | nil => intro st h; exact h
  | cons it rest ih =>
    intro st h
    exact ih _ (hasNew_mono_item now st it h)

theorem process_item_of_hasNew_false (now : Nat) (st : BotState) (it : PixivItem)
    (h : (process_pixiv_item now st it).has_new_images = false) :
    process_pixiv_item now st it = st := by
  unfold process_pixiv_item at h ⊢
  split_ifs at h ⊢ <;> rfl

theorem fold_hasNew_false (now : Nat) :
    ∀ (items : List PixivItem) (st : BotState),
      (List.foldl (process_pixiv_item now) st items).has_new_images = false →
      List.foldl (process_pixiv_item now) st items = st := by
  intro items
  induction items with
  | nil => intro st _; rfl
  | cons it rest ih =>
    intro st h
    rw [List.foldl_cons] at h ⊢
    have h1 : (process_pixiv_item now st it).has_new_images = false := by
      cases hb : (process_pixiv_item now st it).has_new_images with
      | false => rfl
      | true => rw [hasNew_mono_fold now rest _ hb] at h; exact absurd h (by simp)
    rw [process_item_of_hasNew_false now st it h1] at h ⊢
    exact ih st h

theorem fold_hasNew_exists (now : Nat) :
    ∀ (items : List PixivItem) (st : BotState),
      (List.foldl (process_pixiv_item now) st items).has_new_images = true →
      st.has_new_images = true ∨
      ∃ x, x ∈ (List.foldl (process_pixiv_item now) st items).sent_illust_ids ∧
        x ∉ st.sent_illust_ids := by
  intro items
  induction items with
  | nil => intro st h; exact Or.inl h
  | cons it rest ih =>
    intro st h
    rw [List.foldl_cons] at h ⊢
    rcases ih (process_pixiv_item now st it) h with h' | ⟨x, hx1, hx2⟩
    · by_cases hmem : it.pid ∈ st.sent_illust_ids
      · have hst : process_pixiv_item now st it = st := by
          simp [process_pixiv_item, hmem]
        rw [hst] at h'
        exact Or.inl h'
      · by_cases himg : it.imgOk = true
        · refine Or.inr ⟨it.pid, ?_, hmem⟩
          apply mem_seen_fold now rest
          simp [process_pixiv_item, hmem, himg]
        · have hst : process_pixiv_item now st it = st := by
            simp [process_pixiv_item, hmem, himg]
          rw [hst] at h'
          exact Or.inl h'
    · exact Or.inr ⟨x, hx1, fun hc => hx2 (mem_seen_process_pixiv_item now st it hc)⟩

/-! ### Lemmas about the yande path and the scheduler -/

theorem process_yande_post_seen (now : Nat) (st : BotState) (p : YandePost) :
    (process_yande_post now st p).sent_illust_ids = st.sent_illust_ids := by
  unfold process_yande_post
  split_ifs <;> rfl

theorem fetch_yande_seen (now : Nat) :
    ∀ (posts : List YandePost) (st : BotState),
      (fetch_yande now posts st).sent_illust_ids = st.sent_illust_ids := by
  intro posts
  induction posts with
  | nil => intro st; rfl
  | cons p rest ih =>
    intro st
    have hstep : fetch_yande now (p :: rest) st
        = fetch_yande now rest (process_yande_post now st p) := rfl
    rw [hstep, ih, process_yande_post_seen]

theorem mem_scheduler_seen {x : String} (now : Nat) :
    ∀ (cycles : List (List PixivItem)) (seen : List String), x ∈ seen →
      x ∈ scheduler_seen now cycles seen := by
  intro cycles
  induction cycles with
  | nil => intro seen h; exact h
  | cons cyc rest ih =>
    intro seen h
    show x ∈ List.foldl _ _ rest
    exact ih _ (mem_seen_fold now cyc _ h)

/-! ### Claim theorems -/

/-- C5: `push_history_to_cloud` is invoked by a cycle exactly when that
cycle added at least one identifier to `sent_illust_ids` that was not there
at the start of the cycle; a cycle adding nothing performs no remote
history write. -/
theorem flush_gating_iff (now : Nat) (items : List PixivItem) (seen : List String) :
    flush_invoked now items seen = true ↔
      ∃ x, x ∈ (fetch_pixiv_by_cookie now items seen).sent_illust_ids ∧ x ∉ seen := by
  constructor
  · intro h
    have h' : (List.foldl (process_pixiv_item now)
        { sent_illust_ids := seen, has_new_images := false, events := [] }
        items).has_new_images = true := h
    rcases fold_hasNew_exists now items _ h' with hcon | he
    · simp at hcon
    · exact he
  · rintro ⟨x, hx1, hx2⟩
    by_contra hne
    have hf : flush_invoked now items seen = false := by
      cases hb : flush_invoked now items seen with
      | false => rfl
      | true => exact absurd hb hne
    have heq := fold_hasNew_false now items
      { sent_illust_ids := seen, has_new_images := false, events := [] } hf
    have hx1' : x ∈ (List.foldl (process_pixiv_item now) { sent_illust_ids := seen, has_new_images := false, events := [] } items).sent_illust_ids := hx1
    rw [heq] at hx1'
    exact hx2 hx1'

/-- C7: identifiers present in the dedup set persist through every later
fetch cycle (the set grows monotonically after startup; the yande path never
changes it), and a flush of the set followed by a fresh-process load of the
flushed payload restores membership for every identifier in the set
(identifiers actually marked are non-empty, comma-free decimal strings). -/
theorem seen_monotone_and_restart (now : Nat) (cycles : List (List PixivItem))
    (seen : List String) (x : String) (posts : List YandePost) (st : BotState) :
    (x ∈ seen → x ∈ scheduler_seen now cycles seen) ∧
    (fetch_yande now posts st).sent_illust_ids = st.sent_illust_ids ∧
    ((∀ i ∈ seen, i ≠ "" ∧ ',' ∉ i.data) → x ∈ seen →
      x ∈ sync_history_from_cloud (some "https://w")
          (FetchResult.response 200 (push_history_payload seen)) []) := by
  refine ⟨fun h => mem_scheduler_seen now cycles seen h, fetch_yande_seen now posts st, ?_⟩
  intro hids hx
  have hne : seen ≠ [] := List.ne_nil_of_mem hx
  have hpne : push_history_payload seen ≠ "" :=
    pyJoin_ne_empty seen x hx (hids x hx).1
  have ht : truthy (some "https://w") = true := by decide
  have hsync : sync_history_from_cloud (some "https://w")
      (FetchResult.response 200 (push_history_payload seen)) []
      = pySplit (push_history_payload seen) ',' := by
    simp [sync_history_from_cloud, ht, hpne]
  rw [hsync]
  rw [show push_history_payload seen = pyJoin ',' seen from rfl]
  rw [pySplit_pyJoin seen hne (fun p hp => (hids p hp).2)]
  exact hx

/-- Witness for the C7 theorem at a concrete state. -/
theorem seen_monotone_and_restart_witness :
    "5" ∈ scheduler_seen 0 [[], []] ["5"] ∧
    "5" ∈ sync_history_from_cloud (some "https://w")
        (FetchResult.response 200 (push_history_payload ["5"])) [] :=
  ⟨(seen_monotone_and_restart 0 [[], []] ["5"] "5" []
      { sent_illust_ids := [], has_new_images := false, events := [] }).1 (by decide),
   (seen_monotone_and_restart 0 [[], []] ["5"] "5" []
      { sent_illust_ids := [], has_new_images := false, events := [] }).2.2
      (by decide) (by decide)⟩

/-- C1 counterexample: for a pixiv item whose Telegram send (step 1) fails,
the cycle writes no metadata record, yet the item's identifier IS added to
the dedup set and the flush is triggered — `process_image` swallows the
error, so the caller marks the asset seen anyway and it is not eligible for
redelivery. -/
theorem step1_failure_counterexample :
    failSendItem.sendRes = TgSend.fail ∧
    "7" ∈ (fetch_pixiv_by_cookie 0 [failSendItem] []).sent_illust_ids ∧
    (fetch_pixiv_by_cookie 0 [failSendItem] []).events.all
      (fun e => !(isMetadataEvent e)) = true ∧
    flush_invoked 0 [failSendItem] [] = true := by decide

/-- C1 amended: when the send to the messaging sink fails for a not-yet-seen
pixiv item (with a successfully downloaded image), no metadata record is
written (only the failed messaging attempt is observable), but the caller
still records the identifier in the dedup set and sets the flush flag, so
the asset is not redelivered later. -/
theorem step1_failure_amended (now : Nat) (st : BotState) (it : PixivItem)
    (h1 : it.sendRes = TgSend.fail) (h2 : it.imgOk = true)
    (h3 : it.pid ∉ st.sent_illust_ids) :
    (process_pixiv_item now st it).events = st.events ++
      [SinkEvent.messaging "pixiv.jpg"
        (renderPixivCaption it.title it.user (pixivTagsString it))] ∧
    it.pid ∈ (process_pixiv_item now st it).sent_illust_ids ∧
    (process_pixiv_item now st it).has_new_images = true := by
  simp [process_pixiv_item, h1, h2, h3, process_image]

/-- Witness for the C1 amended theorem at a concrete item and state. -/
theorem step1_failure_amended_witness :
    (process_pixiv_item 0 { sent_illust_ids := [], has_new_images := false, events := [] } failSendItem).events = [] ++
      [SinkEvent.messaging "pixiv.jpg"
        (renderPixivCaption failSendItem.title failSendItem.user (pixivTagsString failSendItem))] ∧
    failSendItem.pid ∈ (process_pixiv_item 0 { sent_illust_ids := [], has_new_images := false, events := [] } failSendItem).sent_illust_ids ∧
    (process_pixiv_item 0 { sent_illust_ids := [], has_new_images := false, events := [] } failSendItem).has_new_images = true :=
  step1_failure_amended 0 _ failSendItem rfl rfl (by decide)

/-- C2 counterexample: after a fully successful pixiv delivery of illust 123,
the dedup set contains the bare id `"123"` and not the composite
`"pixiv_123"`, even though the metadata row is keyed `"pixiv_123"`. -/
theorem composite_id_counterexample :
    "pixiv_123" ∉ (fetch_pixiv_by_cookie 0 [okSendItem] []).sent_illust_ids ∧
    "123" ∈ (fetch_pixiv_by_cookie 0 [okSendItem] []).sent_illust_ids ∧
    SinkEvent.metadata
        { id := "pixiv_123", file_name := "f2",
          caption := "Pixiv: t\nArtist: u\nTags: #x", tags := "x pixiv",
          created_at := 0 }
      ∈ (fetch_pixiv_by_cookie 0 [okSendItem] []).events := by decide

/-- C2 amended: the identifier recorded into the dedup set after a delivery
is the bare `str(pid)` (not the source-qualified composite), and the
membership test that skips duplicates uses that same bare form. -/
theorem bare_id_recorded_amended (now : Nat) (st : BotState) (it : PixivItem) :
    (it.pid ∈ st.sent_illust_ids → process_pixiv_item now st it = st) ∧
    (it.imgOk = true → it.pid ∉ st.sent_illust_ids →
      (process_pixiv_item now st it).sent_illust_ids = it.pid :: st.sent_illust_ids) := by
  constructor
  · intro h
    simp [process_pixiv_item, h]
  · intro h1 h2
    simp [process_pixiv_item, h1, h2]

/-- Witness for the C2 amended theorem at concrete inputs. -/
theorem bare_id_recorded_amended_witness :
    process_pixiv_item 0 { sent_illust_ids := ["123"], has_new_images := false, events := [] } okSendItem = { sent_illust_ids := ["123"], has_new_images := false, events := [] } ∧
    (process_pixiv_item 0 { sent_illust_ids := [], has_new_images := false, events := [] } okSendItem).sent_illust_ids = okSendItem.pid :: [] :=
  ⟨(bare_id_recorded_amended 0 _ okSendItem).1 (by decide),
   (bare_id_recorded_amended 0 _ okSendItem).2 rfl (by decide)⟩

/-- C3 counterexample: the end-to-end yande scenario (one candidate, id 42,
tags `"cat cute"`, delivered with reference `"AgAC"`) produces exactly one
metadata insert, keyed `"yande_42"` with tags `"cat cute yande"`, but the
dedup set does NOT contain `"yande_42"` afterwards: the yande path performs
no dedup marking. -/
theorem yande_scenario_counterexample :
    (fetch_yande 0 [yandePost42] { sent_illust_ids := [], has_new_images := false, events := [] }).events =
      [SinkEvent.messaging "yande.jpg" "Yande: 42\nTags: #cat #cute",
       SinkEvent.metadata
         { id := "yande_42", file_name := "AgAC",
           caption := "Yande: 42\nTags: #cat #cute", tags := "cat cute yande",
           created_at := 0 }] ∧
    "yande_42" ∉ (fetch_yande 0 [yandePost42] { sent_illust_ids := [], has_new_images := false, events := [] }).sent_illust_ids := by
  decide

/-- C3 amended: a successfully delivered yande post yields exactly one
metadata insert keyed `"yande_" + id` whose tags are the post's tag string
with `" yande"` appended, and leaves the dedup set unchanged (so
`contains("yande_42")` stays false). -/
theorem yande_delivery_amended (now : Nat) (st : BotState) (p : YandePost)
    (fids : List String) (fid : String)
    (h1 : truthy (yandeImgUrl p) = true) (h2 : p.imgOk = true)
    (h3 : p.sendRes = TgSend.ok fids) (h4 : fids.getLast? = some fid) :
    (process_yande_post now st p).sent_illust_ids = st.sent_illust_ids ∧
    (process_yande_post now st p).events = st.events ++
      [SinkEvent.messaging "yande.jpg" (renderYandeCaption p.id p.tags),
       SinkEvent.metadata (save_to_d1_row ("yande_" ++ toString p.id) fid
         (renderYandeCaption p.id p.tags) p.tags "yande" now)] := by
  constructor
  · exact process_yande_post_seen now st p
  · simp [process_yande_post, h1, h2, process_image, h3, h4]

/-- Witness for the C3 amended theorem at the scenario input. -/
theorem yande_delivery_amended_witness :
    (process_yande_post 0 { sent_illust_ids := [], has_new_images := false, events := [] } yandePost42).sent_illust_ids = [] ∧
    (process_yande_post 0 { sent_illust_ids := [], has_new_images := false, events := [] } yandePost42).events = [] ++
      [SinkEvent.messaging "yande.jpg" (renderYandeCaption yandePost42.id yandePost42.tags),
       SinkEvent.metadata (save_to_d1_row ("yande_" ++ toString yandePost42.id) "AgAC"
         (renderYandeCaption yandePost42.id yandePost42.tags) yandePost42.tags "yande" 0)] :=
  yande_delivery_amended 0 _ yandePost42 ["AgAC"] "AgAC" (by decide) rfl rfl rfl

/-- C4 counterexample: a fully successful delivery touches exactly two
sinks — the messaging channel and the metadata index; no object-store event
exists anywhere in the emitted sequence. -/
theorem three_sinks_counterexample :
    process_image (TgSend.ok ["f"]) "yande_1" "t" "cap" "yande" 0 =
      [SinkEvent.messaging "yande.jpg" "cap",
       SinkEvent.metadata
         { id := "yande_1", file_name := "f", caption := "cap",
           tags := "t yande", created_at := 0 }] ∧
    (process_image (TgSend.ok ["f"]) "yande_1" "t" "cap" "yande" 0).all
      (fun e => !(isObjectStoreEvent e)) = true := by decide

/-- C4 amended: every accepted asset whose send succeeds is fanned out to
two sinks — the messaging channel (whose returned blob reference doubles as
storage) and the metadata index; there is no durable object-store write. -/
theorem two_sinks_amended (post_id tags caption source : String) (now : Nat)
    (fids : List String) (fid : String) (h : fids.getLast? = some fid) :
    process_image (TgSend.ok fids) post_id tags caption source now =
      [SinkEvent.messaging (source ++ ".jpg") caption,
       SinkEvent.metadata (save_to_d1_row post_id fid caption tags source now)] ∧
    ∀ e ∈ process_image (TgSend.ok fids) post_id tags caption source now,
      isObjectStoreEvent e = false := by
  have heq : process_image (TgSend.ok fids) post_id tags caption source now =
      [SinkEvent.messaging (source ++ ".jpg") caption,
       SinkEvent.metadata (save_to_d1_row post_id fid caption tags source now)] := by
    simp [process_image, h]
  refine ⟨heq, ?_⟩
  rw [heq]
  intro e he
  rcases List.mem_cons.mp he with rfl | he2
  · rfl
  · rcases List.mem_cons.mp he2 with rfl | he3
    · rfl
    · exact absurd he3 (List.not_mem_nil e)

/-- Witness for the C4 amended theorem at concrete inputs. -/
theorem two_sinks_amended_witness :
    process_image (TgSend.ok ["f"]) "p1" "t" "cap" "pixiv" 0 =
      [SinkEvent.messaging ("pixiv" ++ ".jpg") "cap",
       SinkEvent.metadata (save_to_d1_row "p1" "f" "cap" "t" "pixiv" 0)] ∧
    ∀ e ∈ process_image (TgSend.ok ["f"]) "p1" "t" "cap" "pixiv" 0,
      isObjectStoreEvent e = false :=
  two_sinks_amended "p1" "t" "cap" "pixiv" 0 ["f"] "f" rfl

/-- C6 counterexample: a successful fetch (status 200) whose body is empty
does NOT replace the in-process set wholesale — the old contents survive,
although the fetched identifier list does not contain them. -/
theorem load_empty_body_counterexample :
    sync_history_from_cloud (some "https://w") (FetchResult.response 200 "") ["a"] = ["a"] ∧
    "a" ∉ pySplit "" ',' := by decide

/-- C6 amended: the in-process set is replaced wholesale by the parsed body
only on a 200 response with a non-empty body; it is left unchanged when the
worker is unconfigured, on a network/parse failure, on a non-200 status,
and also on a successful fetch whose body is empty. -/
theorem load_from_remote_amended (url : Option String) (res : FetchResult)
    (sent : List String) :
    (∀ body, truthy url = true → res = FetchResult.response 200 body → body ≠ "" →
      sync_history_from_cloud url res sent = pySplit body ',') ∧
    (truthy url = false → sync_history_from_cloud url res sent = sent) ∧
    (sync_history_from_cloud url FetchResult.failure sent = sent) ∧
    (∀ status body, status ≠ 200 →
      sync_history_from_cloud url (FetchResult.response status body) sent = sent) ∧
    (sync_history_from_cloud url (FetchResult.response 200 "") sent = sent) := by
  refine ⟨?_, ?_, ?_, ?_, ?_⟩
  · intro body hu hres hb
    subst hres
    simp [sync_history_from_cloud, hu, hb]
  · intro hu
    simp [sync_history_from_cloud, hu]
  · cases hu : truthy url <;> simp [sync_history_from_cloud, hu]
  · intro status body hs
    cases hu : truthy url <;> simp [sync_history_from_cloud, hu, hs]
  · cases hu : truthy url <;> simp [sync_history_from_cloud, hu]

/-- Witness for the C6 amended theorem at concrete inputs. -/
theorem load_from_remote_amended_witness :
    sync_history_from_cloud (some "w") (FetchResult.response 200 "a,b") ["z"] = pySplit "a,b" ',' ∧
    sync_history_from_cloud none (FetchResult.response 200 "a,b") ["z"] = ["z"] :=
  ⟨(load_from_remote_amended (some "w") (FetchResult.response 200 "a,b") ["z"]).1
      "a,b" (by decide) rfl (by decide),
   (load_from_remote_amended none (FetchResult.response 200 "a,b") ["z"]).2.1 (by decide)⟩

/-- C8 counterexample: a configuration with the five code-checked values
present but no object-store bucket (and no worker URL) does not halt, even
though the spec's mandatory list — which includes the object-store bucket —
has an absent member. -/
theorem startup_bucket_counterexample :
    startupHalts configNoBucket = false ∧
    spec_mandatory_missing configNoBucket = true ∧
    truthy configNoBucket.worker_url = false := by decide

/-- C8 amended: the process halts before the scheduler loop iff one of the
five values actually checked — bot credential, channel identifier,
Cloudflare account id, Cloudflare API token, D1 database id — is absent or
empty; the remote-dedup worker URL and the (nonexistent in the code)
object-store bucket never influence the halt decision. -/
theorem startup_halts_amended (c : Config) :
    (startupHalts c = true ↔
      (truthy c.bot_token = false ∨ truthy c.channel_id = false ∨
       truthy c.cf_account_id = false ∨ truthy c.cf_api_token = false ∨
       truthy c.d1_db_id = false)) ∧
    (∀ w b, startupHalts { c with worker_url := w, object_store_bucket := b }
        = startupHalts c) := by
  constructor
  · cases h1 : truthy c.bot_token <;> cases h2 : truthy c.channel_id <;>
      cases h3 : truthy c.cf_account_id <;> cases h4 : truthy c.cf_api_token <;>
      cases h5 : truthy c.d1_db_id <;> simp [startupHalts, h1, h2, h3, h4, h5]
  · intro w b
    rfl

/-- C9: for the tag labels `["a", "b c"]` (space-joined tag string
`"a b c"`), both caption renderers end with `"#a #b #c"`, and splitting that
tag section on spaces yields the three separate hashtag tokens `#a`, `#b`,
`#c`. -/
theorem caption_hashtag_expansion :
    (∀ postId : Nat, ∃ s, renderYandeCaption postId "a b c" = s ++ "#a #b #c") ∧
    (∀ title user : String, ∃ s,
      renderPixivCaption title user (pyJoin ' ' ["a", "b c"]) = s ++ "#a #b #c") ∧
    pySplit "#a #b #c" ' ' = ["#a", "#b", "#c"] := by
  refine ⟨?_, ?_, by decide⟩
  · intro postId
    exact ⟨"Yande: " ++ toString postId ++ "\nTags: ", rfl⟩
  · intro title user
    exact ⟨"Pixiv: " ++ title ++ "\nArtist: " ++ user ++ "\nTags: ", rfl⟩

/-- C10: the tags value stored by every metadata write is the asset's tag
string with the source name appended after a space and whitespace-stripped;
since the source names are non-empty and whitespace-free, the stored value
always ends with the source name and never equals the asset's own tag
string. -/
theorem d1_tags_append_source (pid fid cap tags source : String) (now : Nat)
    (h1 : source.data ≠ []) (h2 : ∀ c ∈ source.data, isPySpace c = false) :
    (save_to_d1_row pid fid cap tags source now).tags = pyStrip (tags ++ " " ++ source) ∧
    source.data <:+ (final_tags tags source).data ∧
    final_tags tags source ≠ tags := by
  have hdata : (tags ++ " " ++ source).data = (tags.data ++ [' ']) ++ source.data := rfl
  have hfd : (final_tags tags source).data
      = (tags.data ++ [' ']).dropWhile isPySpace ++ source.data := by
    show pyStripChars ((tags ++ " " ++ source).data) = _
    rw [hdata, pyStripChars_append _ _ h1 h2]
  refine ⟨rfl, ⟨(tags.data ++ [' ']).dropWhile isPySpace, hfd.symm⟩, ?_⟩
  intro heq
  have hd := congrArg String.data heq
  rw [hfd] at hd
  cases htd : tags.data with
  | nil =>
    rw [htd] at hd
    have hsp : ([' '] : List Char).dropWhile isPySpace = [] := by decide
    simp [hsp] at hd
    exact h1 hd
  | cons c r =>
    rw [htd] at hd
    by_cases hc : isPySpace c = true
    · cases hD : ((c :: r) ++ [' ']).dropWhile isPySpace with
      | nil =>
        rw [hD] at hd
        simp at hd
        have hcmem : c ∈ source.data := by rw [hd]; exact List.mem_cons_self ..
        rw [h2 c hcmem] at hc
        exact Bool.false_ne_true hc
      | cons d ds =>
        have hdns : isPySpace d = false := dropWhile_eq_cons_head_false hD
        rw [hD] at hd
        simp at hd
        rw [hd.1] at hdns
        rw [hdns] at hc
        exact Bool.false_ne_true hc
    · have hcf : isPySpace c = false := by
        cases hcv : isPySpace c with
        | false => rfl
        | true => exact absurd hcv hc
      have hkeep : ((c :: r) ++ [' ']).dropWhile isPySpace = (c :: r) ++ [' '] := by
        rw [List.cons_append]
        exact List.dropWhile_cons_of_neg (by simp [hcf])
      rw [hkeep] at hd
      have hlen := congrArg List.length hd
      simp [List.length_append] at hlen

/-- Witness for the C10 theorem at a concrete tag string and source. -/
theorem d1_tags_append_source_witness :
    (save_to_d1_row "p" "f" "cap" "cat" "yande" 0).tags = pyStrip ("cat" ++ " " ++ "yande") ∧
    "yande".data <:+ (final_tags "cat" "yande").data ∧
    final_tags "cat" "yande" ≠ "cat" :=
  d1_tags_append_source "p" "f" "cap" "cat" "yande" 0 (by decide) (by decide)
